import Mathlib

/-!
# Verification of the Bedrock image-manipulation request builder / response decoder

Shallow embedding of `src/index.ts` (class `BedrockImageManipulation`, method
`generateImage`) together with the base64 helpers from
`scripts/run-image-generation.ts`.

Modelling conventions:
* TypeScript optional fields become `Option` fields; a key is absent from the
  serialized JSON payload exactly when the corresponding `Option` is `none`
  (JSON.stringify drops `undefined`-valued keys).
* `taskType` is a runtime string (TypeScript union types are erased; the
  `default` switch branch handles arbitrary strings).
* JavaScript numbers carry no arithmetic in this code path, so they are
  modelled as `Int`; JS truthiness of a number is `≠ 0`, of a string `≠ ""`.
* Bytes are `Nat` with an explicit `< 256` bound where it matters.
* Thrown JavaScript values are modelled by `ThrownValue`: an `Error` object
  with a message, or a non-`Error` value identified by its `String(...)` form.
* The external Bedrock client (`client.send`) is modelled by a stub behaviour
  `RemoteBehavior` describing what the transport does: throw, return a
  response without a body, return a body that fails `JSON.parse`, or return a
  body parsing to a JSON object (of which only the `error` and `images`
  fields are ever inspected).  The region-based client selection in
  `index.ts` lines 101-104 only chooses which transport handle is used and is
  folded into that stub.
-/

namespace Bedrock

/-- The `imageConfig` sub-record of `ImageGenerationInput` (index.ts lines 22-29).
All fields are optional in TypeScript. -/
structure ImageConfig where
  width : Option Int := none
  height : Option Int := none
  quality : Option String := none
  cfgScale : Option Int := none
  seed : Option Int := none
  numberOfImages : Option Int := none
  deriving DecidableEq, Repr

/-- The input record `ImageGenerationInput` (index.ts lines 16-41). -/
structure ImageGenerationInput where
  prompt : Option String := none
  modelId : Option String := none
  region : Option String := none
  taskType : String
  imageConfig : Option ImageConfig := none
  base64Image : Option String := none
  maskImage : Option String := none
  maskPrompt : Option String := none
  negativePrompt : Option String := none
  outPaintingMode : Option String := none
  conditionImage : Option String := none
  controlMode : Option String := none
  controlStrength : Option Int := none
  colorHexList : Option (List String) := none
  deriving DecidableEq, Repr

/-- The result record `ImageGenerationResult` (index.ts lines 46-53);
`imageBytes` is the `Uint8Array` as a byte list. -/
structure ImageGenerationResult where
  imageBytes : List Nat
  base64Image : String
  modelId : String
  deriving DecidableEq, Repr

/-- JS truthiness of an optional string: `undefined` and `""` are falsy. -/
def jsTruthyStr : Option String → Bool
  | none => false
  | some s => s ≠ ""

/-- JS truthiness of an optional number: `undefined` and `0` are falsy. -/
def jsTruthyInt : Option Int → Bool
  | none => false
  | some n => n ≠ 0

/-- The serialized `imageGenerationConfig` block (index.ts lines 112-119).
`numberOfImages`, `quality` and `cfgScale` keys are always present;
`seed`, `width`, `height` are conditionally spread in. -/
structure ImageGenerationConfig where
  numberOfImages : Int
  quality : String
  cfgScale : Int
  seed : Option Int
  width : Option Int
  height : Option Int
  deriving DecidableEq, Repr

/-- `textToImageParams` (index.ts lines 124-132): `conditionImage`,
`controlMode`, `controlStrength` are spread in only when `conditionImage`
is truthy. -/
structure TextToImageParams where
  text : Option String
  negativeText : Option String
  conditionImage : Option String
  controlMode : Option String
  controlStrength : Option Int
  deriving DecidableEq, Repr

/-- `inPaintingParams` (index.ts lines 136-142): all fields copied through. -/
structure InPaintingParams where
  image : Option String
  maskImage : Option String
  maskPrompt : Option String
  text : Option String
  negativeText : Option String
  deriving DecidableEq, Repr

/-- `outPaintingParams` (index.ts lines 146-153): like inpainting plus
`outPaintingMode: outPaintingMode || 'DEFAULT'` (always present). -/
structure OutPaintingParams where
  image : Option String
  maskImage : Option String
  maskPrompt : Option String
  text : Option String
  negativeText : Option String
  outPaintingMode : String
  deriving DecidableEq, Repr

/-- `backgroundRemovalParams` (index.ts lines 157-159). -/
structure BackgroundRemovalParams where
  image : Option String
  deriving DecidableEq, Repr

/-- `colorGuidedGenerationParams` (index.ts lines 163-168). -/
structure ColorGuidedGenerationParams where
  text : Option String
  negativeText : Option String
  referenceImage : Option String
  colors : Option (List String)
  deriving DecidableEq, Repr

/-- The dynamic `requestBody` (index.ts lines 107-173) after JSON
serialization: the task-section key is present exactly for the `Option`
field that is `some`. -/
structure RequestBody where
  taskType : String
  imageGenerationConfig : ImageGenerationConfig
  textToImageParams : Option TextToImageParams := none
  inPaintingParams : Option InPaintingParams := none
  outPaintingParams : Option OutPaintingParams := none
  backgroundRemovalParams : Option BackgroundRemovalParams := none
  colorGuidedGenerationParams : Option ColorGuidedGenerationParams := none
  deriving DecidableEq, Repr

/-- A thrown JavaScript value: either an `Error` instance carrying a
message, or any other value identified by its `String(...)` rendering
(index.ts line 210 distinguishes exactly these two cases). -/
inductive ThrownValue where
  | errorObj (message : String)
  | otherVal (stringForm : String)
  deriving DecidableEq, Repr

/-- The `error`/`images` fields of the JSON object produced by
`JSON.parse` on the response body (the only fields index.ts inspects,
lines 191-199). -/
structure ResponseJson where
  error : Option String := none
  images : Option (List String) := none
  deriving DecidableEq, Repr

/-- Stub behaviour of the external transport for one call: `client.send`
throws, returns a response with no `body`, returns a body whose
`JSON.parse` throws, or returns a body parsing to `j`. -/
inductive RemoteBehavior where
  | sendThrows (v : ThrownValue)
  | noBody
  | parseThrows (v : ThrownValue)
  | parsed (j : ResponseJson)
  deriving DecidableEq, Repr

/-- The default model id (index.ts line 78). -/
def defaultModelId : String := "amazon.nova-canvas-v1:0"

/-- The message of a thrown value as the catch block renders it:
`error instanceof Error ? error.message : String(error)` (index.ts line 210). -/
def thrownMessage : ThrownValue → String
  | .errorObj m => m
  | .otherVal s => s

/-- Builds the `imageGenerationConfig` block (index.ts lines 92-99 defaults
and 112-119 spreads): destructuring defaults `width = 1024`, `height = 1024`,
`quality = 'premium'`, `cfgScale = 8.0`, `numberOfImages = 1` (no default for
`seed`); then `...(seed !== undefined && { seed })` includes `seed` iff
defined, while `...(width && { width })` / `...(height && { height })`
include them iff truthy after the default. -/
def buildImageGenerationConfig (ic : ImageConfig) : ImageGenerationConfig :=
  let width := ic.width.getD 1024
  let height := ic.height.getD 1024
  { numberOfImages := ic.numberOfImages.getD 1
    quality := ic.quality.getD "premium"
    cfgScale := ic.cfgScale.getD 8
    seed := ic.seed
    width := if width ≠ 0 then some width else none
    height := if height ≠ 0 then some height else none }

/-- The switch on `taskType` building `requestBody` (index.ts lines
107-173); the `default` branch throws
`Error("Unsupported taskType: " + taskType)` (line 172), before the
try block. -/
def buildRequestBody (options : ImageGenerationInput) : Except ThrownValue RequestBody :=
  let cfg := buildImageGenerationConfig (options.imageConfig.getD {})
  let base : RequestBody := { taskType := options.taskType, imageGenerationConfig := cfg }
  if options.taskType = "TEXT_IMAGE" then
    .ok { base with textToImageParams := some (
      { text := options.prompt
        negativeText := options.negativePrompt
        conditionImage := if jsTruthyStr options.conditionImage then options.conditionImage else none
        controlMode := if jsTruthyStr options.conditionImage then options.controlMode else none
        controlStrength := if jsTruthyStr options.conditionImage then options.controlStrength else none }) }
  else if options.taskType = "INPAINTING" then
    .ok { base with inPaintingParams := some (
      { image := options.base64Image
        maskImage := options.maskImage
        maskPrompt := options.maskPrompt
        text := options.prompt
        negativeText := options.negativePrompt }) }
  else if options.taskType = "OUTPAINTING" then
    .ok { base with outPaintingParams := some (
      { image := options.base64Image
        maskImage := options.maskImage
        maskPrompt := options.maskPrompt
        text := options.prompt
        negativeText := options.negativePrompt
        outPaintingMode :=
          match options.outPaintingMode with
          | none => "DEFAULT"
          | some m => if m = "" then "DEFAULT" else m }) }
  else if options.taskType = "BACKGROUND_REMOVAL" then
    .ok { base with backgroundRemovalParams := some ({ image := options.base64Image }) }
  else if options.taskType = "COLOR_GUIDED_GENERATION" then
    .ok { base with colorGuidedGenerationParams := some (
      { text := options.prompt
        negativeText := options.negativePrompt
        referenceImage := options.base64Image
        colors := options.colorHexList }) }
  else
    .error (.errorObj ("Unsupported taskType: " ++ options.taskType))

/-- The base64 alphabet used by Node's `Buffer`. -/
def b64Alphabet : List Char :=
  "ABCDEFGHIJKLMNOPQRSTUVWXYZabcdefghijklmnopqrstuvwxyz0123456789+/".data

/-- Character for a 6-bit group. -/
def sextetToChar (n : Nat) : Char := b64Alphabet.getD n 'A'

/-- Index of a character in the base64 alphabet. -/
def charToSextet (c : Char) : Option Nat := b64Alphabet.indexOf? c

/-- Node's base64 encoder (`buffer.toString('base64')`, used by
`readImageAsBase64` in scripts/run-image-generation.ts line 9): bytes are
grouped in threes into four characters, a trailing group of one or two
bytes is padded with `=`. -/
def b64EncodeBytes : List Nat → List Char
  | [] => []
  | [a] =>
    [sextetToChar (a / 4), sextetToChar (a % 4 * 16), '=', '=']
  | [a, b] =>
    [sextetToChar (a / 4), sextetToChar (a % 4 * 16 + b / 16),
     sextetToChar (b % 16 * 4), '=']
  | a :: b :: c :: rest =>
    sextetToChar (a / 4) :: sextetToChar (a % 4 * 16 + b / 16) ::
    sextetToChar (b % 16 * 4 + c / 64) :: sextetToChar (c % 64) ::
    b64EncodeBytes rest

/-- Node's base64 decoder (`Buffer.from(s, 'base64')`, index.ts line 200),
modelled on well-formed base64 text: four characters decode to three bytes,
with `=` padding ending the input after one or two bytes of the final group. -/
def b64DecodeBytes : List Char → List Nat
  | c1 :: c2 :: c3 :: c4 :: rest =>
    match charToSextet c1, charToSextet c2 with
    | some s1, some s2 =>
      if c3 = '=' then [s1 * 4 + s2 / 16]
      else
        match charToSextet c3 with
        | some s3 =>
          if c4 = '=' then [s1 * 4 + s2 / 16, s2 % 16 * 16 + s3 / 4]
          else
            match charToSextet c4 with
            | some s4 =>
              (s1 * 4 + s2 / 16) :: (s2 % 16 * 16 + s3 / 4) :: (s3 % 4 * 64 + s4) ::
              b64DecodeBytes rest
            | none => []
        | none => []
    | _, _ => []
  | _ => []

/-- `new Uint8Array(Buffer.from(base64Image, 'base64'))` (index.ts line 200). -/
def bufferFromBase64 (s : String) : List Nat := b64DecodeBytes s.data

/-- The try block of `generateImage` (index.ts lines 182-206): send, check
`response.body`, `JSON.parse`, check `responseBody.error` (truthiness),
check `!responseBody.images || !responseBody.images[0]` (falsiness of the
first element), then decode and return. -/
def tryBlock (modelId : String) (remote : RemoteBehavior) :
    Except ThrownValue ImageGenerationResult :=
  match remote with
  | .sendThrows v => .error v
  | .noBody => .error (.errorObj "No response body received from model")
  | .parseThrows v => .error v
  | .parsed j =>
    if jsTruthyStr j.error then
      .error (.errorObj ("Model error: " ++ j.error.getD ""))
    else
      match j.images with
      | none => .error (.errorObj "No image returned from model")
      | some [] => .error (.errorObj "No image returned from model")
      | some (s :: _) =>
        if s = "" then .error (.errorObj "No image returned from model")
        else .ok { imageBytes := bufferFromBase64 s, base64Image := s, modelId := modelId }

/-- Outcome of one `generateImage` call, together with whether
`client.send` was reached. -/
structure GenOutcome where
  result : Except ThrownValue ImageGenerationResult
  sendInvoked : Bool
  deriving Repr

/-- `generateImage` (index.ts lines 72-214): build the request body (the
`default` switch branch throws before the try block, so the transport is
never invoked there), then run the try block and wrap any exception it
raises as `Error("Image generation failed: " + message)` (lines 207-213). -/
def generateImageRun (options : ImageGenerationInput) (remote : RemoteBehavior) : GenOutcome :=
  match buildRequestBody options with
  | .error e => { result := .error e, sendInvoked := false }
  | .ok _body =>
    { result :=
        match tryBlock (options.modelId.getD defaultModelId) remote with
        | .ok r => .ok r
        | .error e => .error (.errorObj ("Image generation failed: " ++ thrownMessage e))
      sendInvoked := true }

/-- What the caller of `generateImage` observes: the returned result or the
thrown error. -/
def generateImage (options : ImageGenerationInput) (remote : RemoteBehavior) :
    Except ThrownValue ImageGenerationResult :=
  (generateImageRun options remote).result

/-! ## Base64 lemmas -/

/-- Decoding a character produced by the encoder recovers the 6-bit group. -/
theorem charToSextet_sextetToChar : ∀ n < 64, charToSextet (sextetToChar n) = some n := by
  decide

/-- The encoder never emits the padding character. -/
theorem sextetToChar_ne_pad : ∀ n < 64, sextetToChar n ≠ '=' := by
  decide

/-- Round trip of the byte-level base64 pair on byte sequences. -/
theorem b64_decode_encode : ∀ bs : List Nat, (∀ b ∈ bs, b < 256) →
    b64DecodeBytes (b64EncodeBytes bs) = bs
  | [], _ => rfl
  | [a], h => by
    have ha : a < 256 := h a (by simp)
    have h1 : a / 4 < 64 := by omega
    have h2 : a % 4 * 16 < 64 := by omega
    simp only [b64EncodeBytes, b64DecodeBytes,
      charToSextet_sextetToChar _ h1, charToSextet_sextetToChar _ h2,
      if_pos rfl, if_true]
    simp only [List.cons.injEq, and_true]
    omega
  | [a, b], h => by
    have ha : a < 256 := h a (by simp)
    have hb : b < 256 := h b (by simp)
    have h1 : a / 4 < 64 := by omega
    have h2 : a % 4 * 16 + b / 16 < 64 := by omega
    have h3 : b % 16 * 4 < 64 := by omega
    simp only [b64EncodeBytes, b64DecodeBytes,
      charToSextet_sextetToChar _ h1, charToSextet_sextetToChar _ h2,
      charToSextet_sextetToChar _ h3,
      if_neg (sextetToChar_ne_pad _ h3), if_pos rfl, if_true]
    simp only [List.cons.injEq, and_true]
    exact ⟨by omega, by omega⟩
  | a :: b :: c :: rest, h => by
    have ha : a < 256 := h a (by simp)
    have hb : b < 256 := h b (by simp)
    have hc : c < 256 := h c (by simp)
    have h1 : a / 4 < 64 := by omega
    have h2 : a % 4 * 16 + b / 16 < 64 := by omega
    have h3 : b % 16 * 4 + c / 64 < 64 := by omega
    have h4 : c % 64 < 64 := by omega
    have ih := b64_decode_encode rest (fun x hx => h x (by simp [hx]))
    simp only [b64EncodeBytes, b64DecodeBytes,
      charToSextet_sextetToChar _ h1, charToSextet_sextetToChar _ h2,
      charToSextet_sextetToChar _ h3, charToSextet_sextetToChar _ h4,
      if_neg (sextetToChar_ne_pad _ h3), if_neg (sextetToChar_ne_pad _ h4)]
    rw [ih]
    simp only [List.cons.injEq, and_true]
    exact ⟨by omega, by omega, by omega⟩

/-! ## Concrete fixtures (used by witnesses and counterexamples) -/

/-- The generation-config block produced when the caller supplies no
`imageConfig` at all: every destructuring default applies. -/
def defaultGenConfig : ImageGenerationConfig :=
  { numberOfImages := 1, quality := "premium", cfgScale := 8,
    seed := none, width := some 1024, height := some 1024 }

/-- A plain text-to-image request (the spec's end-to-end scenario input). -/
def tiInput : ImageGenerationInput := { taskType := "TEXT_IMAGE", prompt := some "A cat" }

/-- The payload built for `tiInput`. -/
def tiBody : RequestBody :=
  { taskType := "TEXT_IMAGE"
    imageGenerationConfig := defaultGenConfig
    textToImageParams := some
      { text := some "A cat", negativeText := none, conditionImage := none,
        controlMode := none, controlStrength := none } }

/-- A text-to-image request supplying width, height and seed explicitly. -/
def suppliedDimsInput : ImageGenerationInput :=
  { taskType := "TEXT_IMAGE", prompt := some "A cat",
    imageConfig := some { width := some 512, height := some 768, seed := some 42 } }

/-- The payload built for `suppliedDimsInput`. -/
def suppliedDimsBody : RequestBody :=
  { taskType := "TEXT_IMAGE"
    imageGenerationConfig :=
      { numberOfImages := 1, quality := "premium", cfgScale := 8,
        seed := some 42, width := some 512, height := some 768 }
    textToImageParams := some
      { text := some "A cat", negativeText := none, conditionImage := none,
        controlMode := none, controlStrength := none } }

/-- A text-to-image request supplying width 0, height 0 and seed 0. -/
def zeroDimsInput : ImageGenerationInput :=
  { taskType := "TEXT_IMAGE", prompt := some "A cat",
    imageConfig := some { width := some 0, height := some 0, seed := some 0 } }

/-- The payload built for `zeroDimsInput`: the zero width and height are
dropped, the zero seed is kept. -/
def zeroDimsBody : RequestBody :=
  { taskType := "TEXT_IMAGE"
    imageGenerationConfig :=
      { numberOfImages := 1, quality := "premium", cfgScale := 8,
        seed := some 0, width := none, height := none }
    textToImageParams := some
      { text := some "A cat", negativeText := none, conditionImage := none,
        controlMode := none, controlStrength := none } }

/-- An inpainting request supplying both a mask image and a mask prompt. -/
def maskBothInput : ImageGenerationInput :=
  { taskType := "INPAINTING", prompt := some "A palm tree",
    base64Image := some "QUJD", maskImage := some "TUFTSw==",
    maskPrompt := some "Tree" }

/-- The payload built for `maskBothInput`: both mask fields pass through. -/
def maskBothBody : RequestBody :=
  { taskType := "INPAINTING"
    imageGenerationConfig := defaultGenConfig
    inPaintingParams := some
      { image := some "QUJD", maskImage := some "TUFTSw==",
        maskPrompt := some "Tree", text := some "A palm tree",
        negativeText := none } }

/-- A request with an unrecognized task kind (the spec's `"BOGUS"` scenario). -/
def bogusTaskInput : ImageGenerationInput := { taskType := "BOGUS", prompt := some "A cat" }

/-- The result returned when the stub response is `{ images: ["QUJD"] }`. -/
def sampleResult : ImageGenerationResult :=
  { imageBytes := [65, 66, 67], base64Image := "QUJD", modelId := defaultModelId }

/-! ## Helper lemmas -/

/-- Every successfully built payload carries the generation-config block
computed from the (defaulted) input `imageConfig`. -/
theorem requestBody_config (options : ImageGenerationInput) (body : RequestBody)
    (h : buildRequestBody options = Except.ok body) :
    body.imageGenerationConfig = buildImageGenerationConfig (options.imageConfig.getD {}) := by
  simp only [buildRequestBody] at h
  split_ifs at h <;> cases h <;> rfl

/-! ## Claim C4 -/

/-- C4: for each of the five recognized task kinds, the generated payload
contains exactly the per-task section named for that kind
(`textToImageParams`, `inPaintingParams`, `outPaintingParams`,
`backgroundRemovalParams`, `colorGuidedGenerationParams` respectively) and
none of the other four task sections. -/
theorem payload_has_exactly_one_task_section (options : ImageGenerationInput)
    (body : RequestBody) (h : buildRequestBody options = Except.ok body) :
    (options.taskType = "TEXT_IMAGE" →
      body.textToImageParams.isSome ∧ body.inPaintingParams = none ∧
      body.outPaintingParams = none ∧ body.backgroundRemovalParams = none ∧
      body.colorGuidedGenerationParams = none) ∧
    (options.taskType = "INPAINTING" →
      body.inPaintingParams.isSome ∧ body.textToImageParams = none ∧
      body.outPaintingParams = none ∧ body.backgroundRemovalParams = none ∧
      body.colorGuidedGenerationParams = none) ∧
    (options.taskType = "OUTPAINTING" →
      body.outPaintingParams.isSome ∧ body.textToImageParams = none ∧
      body.inPaintingParams = none ∧ body.backgroundRemovalParams = none ∧
      body.colorGuidedGenerationParams = none) ∧
    (options.taskType = "BACKGROUND_REMOVAL" →
      body.backgroundRemovalParams.isSome ∧ body.textToImageParams = none ∧
      body.inPaintingParams = none ∧ body.outPaintingParams = none ∧
      body.colorGuidedGenerationParams = none) ∧
    (options.taskType = "COLOR_GUIDED_GENERATION" →
      body.colorGuidedGenerationParams.isSome ∧ body.textToImageParams = none ∧
      body.inPaintingParams = none ∧ body.outPaintingParams = none ∧
      body.backgroundRemovalParams = none) := by
  simp only [buildRequestBody] at h
  split_ifs at h with h1 h2 h3 h4 h5 <;> cases h <;>
    refine ⟨?_, ?_, ?_, ?_, ?_⟩ <;> intro hx <;> simp_all

/-- C4 witness: the text-to-image payload for `tiInput` has exactly the
`textToImageParams` section. -/
theorem payload_has_exactly_one_task_section_witness :
    buildRequestBody tiInput = Except.ok tiBody ∧ tiInput.taskType = "TEXT_IMAGE" ∧
    (tiBody.textToImageParams.isSome ∧ tiBody.inPaintingParams = none ∧
      tiBody.outPaintingParams = none ∧ tiBody.backgroundRemovalParams = none ∧
      tiBody.colorGuidedGenerationParams = none) :=
  ⟨rfl, rfl, (payload_has_exactly_one_task_section tiInput tiBody rfl).1 rfl⟩

/-! ## Claim C1 -/

/-- C1 counterexample: for an input that omits width, height and seed, the
generation-config block nevertheless contains the keys `width` and `height`
(with the destructuring default 1024); only `seed` is omitted. -/
theorem omitted_dims_still_present :
    (buildRequestBody tiInput).map
        (fun b => (b.imageGenerationConfig.width, b.imageGenerationConfig.height,
                   b.imageGenerationConfig.seed))
      = Except.ok (some 1024, some 1024, none) := rfl

/-- C1 (amended): if the input omits width, height and seed, the
generation-config block omits the `seed` key but contains `width` and
`height` with the default value 1024; if the input supplies all three with
nonzero width and height, the block contains all three with the supplied
values. -/
theorem config_conditional_inclusion (options : ImageGenerationInput)
    (body : RequestBody) (h : buildRequestBody options = Except.ok body)
    (ic : ImageConfig) (hic : options.imageConfig.getD {} = ic) :
    (ic.width = none → ic.height = none → ic.seed = none →
      body.imageGenerationConfig.seed = none ∧
      body.imageGenerationConfig.width = some 1024 ∧
      body.imageGenerationConfig.height = some 1024) ∧
    (∀ w ht s : Int, ic.width = some w → ic.height = some ht → ic.seed = some s →
      w ≠ 0 → ht ≠ 0 →
      body.imageGenerationConfig.width = some w ∧
      body.imageGenerationConfig.height = some ht ∧
      body.imageGenerationConfig.seed = some s) := by
  rw [requestBody_config options body h, hic]
  unfold buildImageGenerationConfig
  constructor
  · intro hw hh hs
    simp [hw, hh, hs]
  · intro w ht s hw hh hs hw0 hh0
    simp [hw, hh, hs, hw0, hh0]

/-- C1 witness: supplying width 512, height 768 and seed 42 puts all three
into the generation-config block. -/
theorem config_conditional_inclusion_witness :
    buildRequestBody suppliedDimsInput = Except.ok suppliedDimsBody ∧
    suppliedDimsInput.imageConfig.getD {}
      = ({ width := some 512, height := some 768, seed := some 42 } : ImageConfig) ∧
    (suppliedDimsBody.imageGenerationConfig.width = some 512 ∧
      suppliedDimsBody.imageGenerationConfig.height = some 768 ∧
      suppliedDimsBody.imageGenerationConfig.seed = some 42) :=
  ⟨rfl, rfl,
    (config_conditional_inclusion suppliedDimsInput suppliedDimsBody rfl _ rfl).2
      512 768 42 rfl rfl rfl (by decide) (by decide)⟩

/-! ## Claim C10 -/

/-- C10: an explicitly supplied width 0 or height 0 is omitted from the
generation-config block (inclusion is tested by truthiness), while an
explicitly supplied seed 0 is included (inclusion is tested by
definedness). -/
theorem zero_dims_dropped_zero_seed_kept (options : ImageGenerationInput)
    (body : RequestBody) (h : buildRequestBody options = Except.ok body)
    (ic : ImageConfig) (hic : options.imageConfig = some ic) :
    (ic.width = some 0 → body.imageGenerationConfig.width = none) ∧
    (ic.height = some 0 → body.imageGenerationConfig.height = none) ∧
    (ic.seed = some 0 → body.imageGenerationConfig.seed = some 0) := by
  rw [requestBody_config options body h, hic]
  unfold buildImageGenerationConfig
  refine ⟨fun hw => ?_, fun hh => ?_, fun hs => ?_⟩ <;> simp_all

/-- C10 witness: width 0 and height 0 vanish from the block while seed 0
stays. -/
theorem zero_dims_dropped_zero_seed_kept_witness :
    buildRequestBody zeroDimsInput = Except.ok zeroDimsBody ∧
    zeroDimsInput.imageConfig
      = some ({ width := some 0, height := some 0, seed := some 0 } : ImageConfig) ∧
    (zeroDimsBody.imageGenerationConfig.width = none ∧
      zeroDimsBody.imageGenerationConfig.height = none ∧
      zeroDimsBody.imageGenerationConfig.seed = some 0) :=
  ⟨rfl, rfl,
    ⟨(zero_dims_dropped_zero_seed_kept zeroDimsInput zeroDimsBody rfl _ rfl).1 rfl,
     (zero_dims_dropped_zero_seed_kept zeroDimsInput zeroDimsBody rfl _ rfl).2.1 rfl,
     (zero_dims_dropped_zero_seed_kept zeroDimsInput zeroDimsBody rfl _ rfl).2.2 rfl⟩⟩

/-! ## Claim C3 -/

/-- C3 counterexample: an inpainting request supplying both a mask image
and a mask prompt produces a task section carrying both — neither rejection
nor precedence. -/
theorem both_masks_passed_through :
    (buildRequestBody maskBothInput).map
        (fun b => b.inPaintingParams.map (fun p => (p.maskImage, p.maskPrompt)))
      = Except.ok (some (some "TUFTSw==", some "Tree")) := rfl

/-- C3 (amended): for INPAINTING and OUTPAINTING requests the builder
copies `maskImage` and `maskPrompt` into the task section exactly as
supplied, enforcing no mutual exclusion: when the caller supplies both,
both are passed through, and at most one appears only when the caller
supplied at most one. -/
theorem mask_fields_passed_through_verbatim (options : ImageGenerationInput)
    (body : RequestBody) (h : buildRequestBody options = Except.ok body) :
    (options.taskType = "INPAINTING" → ∀ p, body.inPaintingParams = some p →
      p.maskImage = options.maskImage ∧ p.maskPrompt = options.maskPrompt) ∧
    (options.taskType = "OUTPAINTING" → ∀ p, body.outPaintingParams = some p →
      p.maskImage = options.maskImage ∧ p.maskPrompt = options.maskPrompt) := by
  simp only [buildRequestBody] at h
  split_ifs at h <;> cases h <;>
    refine ⟨?_, ?_⟩ <;> intro hx p hp <;> simp_all <;> simp [← hp]

/-- C3 witness: with both mask fields supplied, the inpainting section
carries both verbatim. -/
theorem mask_fields_passed_through_verbatim_witness :
    buildRequestBody maskBothInput = Except.ok maskBothBody ∧
    maskBothInput.taskType = "INPAINTING" ∧
    maskBothBody.inPaintingParams = some
      ({ image := some "QUJD", maskImage := some "TUFTSw==",
         maskPrompt := some "Tree", text := some "A palm tree",
         negativeText := none } : InPaintingParams) ∧
    (some "TUFTSw==" = maskBothInput.maskImage ∧ some "Tree" = maskBothInput.maskPrompt) :=
  ⟨rfl, rfl, rfl,
    (mask_fields_passed_through_verbatim maskBothInput maskBothBody rfl).1 rfl _ rfl⟩

/-! ## Claim C2 -/

/-- C2 counterexample: an unrecognized task kind surfaces the InvalidTask
error unwrapped — the message the caller sees is the inner
"Unsupported taskType" text, not a GenerationFailed message starting with
"Image generation failed: ". -/
theorem invalid_task_not_wrapped :
    generateImage bogusTaskInput (.parsed { images := some ["QUJD"] })
      = Except.error (.errorObj "Unsupported taskType: BOGUS") ∧
    "Unsupported taskType: BOGUS".data.take 25 ≠ "Image generation failed: ".data :=
  ⟨rfl, by decide⟩

/-- C2 (amended): every error raised during send, decode, or validation —
network transport, missing response body, JSON parse failure, RemoteError,
EmptyResult — is surfaced as a single GenerationFailed error whose message
embeds the inner error's message (or its string form if it lacks one);
only the InvalidTask error, raised before the try block, propagates
unwrapped. -/
theorem generation_errors_wrapped (options : ImageGenerationInput)
    (remote : RemoteBehavior) :
    (∀ e, buildRequestBody options = Except.error e →
      generateImage options remote = Except.error e) ∧
    (∀ body e, buildRequestBody options = Except.ok body →
      tryBlock (options.modelId.getD defaultModelId) remote = Except.error e →
      generateImage options remote
        = Except.error (.errorObj ("Image generation failed: " ++ thrownMessage e))) := by
  constructor
  · intro e he
    simp only [generateImage, generateImageRun, he]
  · intro body e hb ht
    simp only [generateImage, generateImageRun, hb, ht]

/-- C2 witness: a transport exception thrown as a bare string surfaces as
GenerationFailed embedding its string form. -/
theorem generation_errors_wrapped_witness :
    buildRequestBody tiInput = Except.ok tiBody ∧
    tryBlock (tiInput.modelId.getD defaultModelId)
        (.sendThrows (.otherVal "Socket closed"))
      = Except.error (.otherVal "Socket closed") ∧
    generateImage tiInput (.sendThrows (.otherVal "Socket closed"))
      = Except.error (.errorObj "Image generation failed: Socket closed") :=
  ⟨rfl, rfl,
    (generation_errors_wrapped tiInput (.sendThrows (.otherVal "Socket closed"))).2
      tiBody (.otherVal "Socket closed") rfl rfl⟩

/-! ## Claim C7 -/

/-- C7: for every input whose task kind is not among the five recognized
variants, the call fails with the InvalidTask error before any network
activity — whatever the transport would do, `client.send` is never invoked
and the outcome is the same InvalidTask error. -/
theorem invalid_task_before_send (options : ImageGenerationInput)
    (remote : RemoteBehavior)
    (h1 : options.taskType ≠ "TEXT_IMAGE")
    (h2 : options.taskType ≠ "INPAINTING")
    (h3 : options.taskType ≠ "OUTPAINTING")
    (h4 : options.taskType ≠ "BACKGROUND_REMOVAL")
    (h5 : options.taskType ≠ "COLOR_GUIDED_GENERATION") :
    generateImageRun options remote
      = { result := Except.error (.errorObj ("Unsupported taskType: " ++ options.taskType)),
          sendInvoked := false } := by
  simp only [generateImageRun, buildRequestBody, if_neg h1, if_neg h2, if_neg h3,
    if_neg h4, if_neg h5]

/-- C7 witness: the `"BOGUS"` request yields the InvalidTask error with the
transport never invoked, for a transport that would have returned an image. -/
theorem invalid_task_before_send_witness :
    (bogusTaskInput.taskType ≠ "TEXT_IMAGE" ∧ bogusTaskInput.taskType ≠ "INPAINTING" ∧
      bogusTaskInput.taskType ≠ "OUTPAINTING" ∧
      bogusTaskInput.taskType ≠ "BACKGROUND_REMOVAL" ∧
      bogusTaskInput.taskType ≠ "COLOR_GUIDED_GENERATION") ∧
    generateImageRun bogusTaskInput (.parsed { images := some ["QUJD"] })
      = { result := Except.error (.errorObj "Unsupported taskType: BOGUS"),
          sendInvoked := false } :=
  ⟨⟨by decide, by decide, by decide, by decide, by decide⟩,
    invalid_task_before_send bogusTaskInput (.parsed { images := some ["QUJD"] })
      (by decide) (by decide) (by decide) (by decide) (by decide)⟩

/-! ## Claim C5 -/

/-- C5: for every successful call whose remote response parsed to an images
array headed by `s`, the returned result's base64 field equals `s`, its
raw-bytes field equals the base64 decoding of `s`, and its modelId equals
the request's model id (caller-supplied, or the default) — not a value
taken from the response. -/
theorem success_result_fields (options : ImageGenerationInput) (j : ResponseJson)
    (s : String) (rest : List String) (res : ImageGenerationResult)
    (himg : j.images = some (s :: rest))
    (h : generateImage options (.parsed j) = Except.ok res) :
    res.base64Image = s ∧ res.imageBytes = bufferFromBase64 s ∧
    res.modelId = options.modelId.getD defaultModelId := by
  unfold generateImage generateImageRun at h
  cases hb : buildRequestBody options with
  | error e => rw [hb] at h; simp at h
  | ok body =>
    rw [hb] at h
    cases ht : tryBlock (options.modelId.getD defaultModelId) (.parsed j) with
    | error e => rw [ht] at h; simp at h
    | ok r =>
      rw [ht] at h
      simp only [Except.ok.injEq] at h
      subst h
      simp only [tryBlock, himg] at ht
      split_ifs at ht with herr hs
      cases ht
      exact ⟨rfl, rfl, rfl⟩

/-- C5 witness: a stub response `{ images: ["QUJD"] }` yields base64 field
"QUJD", bytes `[65, 66, 67]` and the default model id. -/
theorem success_result_fields_witness :
    ({ images := some ["QUJD"] } : ResponseJson).images = some ["QUJD"] ∧
    generateImage tiInput (.parsed { images := some ["QUJD"] }) = Except.ok sampleResult ∧
    (sampleResult.base64Image = "QUJD" ∧
      sampleResult.imageBytes = bufferFromBase64 "QUJD" ∧
      sampleResult.modelId = tiInput.modelId.getD defaultModelId) :=
  ⟨rfl, rfl,
    success_result_fields tiInput { images := some ["QUJD"] } "QUJD" [] sampleResult rfl rfl⟩

/-! ## Claim C6 -/

/-- C6 counterexample: a response whose `error` field is present but empty
(`{ error: "", images: ["QUJD"] }`) does not fail with RemoteError — the
truthiness test skips it and the call succeeds. -/
theorem empty_error_field_ignored :
    generateImage tiInput (.parsed { error := some "", images := some ["QUJD"] })
      = Except.ok sampleResult := rfl

/-- C6 (amended): a response whose `error` field is present and non-empty
(truthy) fails with the RemoteError mentioning that value; a response with
`{ images: [] }` or no images array (and no truthy error) fails with
EmptyResult; both surface only through the wrapped GenerationFailed
message text. -/
theorem response_validation_errors (options : ImageGenerationInput)
    (body : RequestBody) (h : buildRequestBody options = Except.ok body)
    (j : ResponseJson) :
    (∀ e, j.error = some e → e ≠ "" →
      generateImage options (.parsed j)
        = Except.error (.errorObj ("Image generation failed: Model error: " ++ e))) ∧
    (jsTruthyStr j.error = false → j.images = none ∨ j.images = some [] →
      generateImage options (.parsed j)
        = Except.error (.errorObj "Image generation failed: No image returned from model")) := by
  constructor
  · intro e he hne
    simp only [generateImage, generateImageRun, h, tryBlock, he]
    rw [if_pos (by simp [jsTruthyStr, hne])]
    simp only [thrownMessage, Option.getD_some]
    rw [← String.append_assoc]
    rfl
  · intro herr himg
    simp only [generateImage, generateImageRun, h, tryBlock, herr]
    rcases himg with hi | hi <;> simp [hi, thrownMessage]

/-- C6 witness: `{ error: "boom" }` fails with the wrapped RemoteError
message, and `{ images: [] }` fails with the wrapped EmptyResult message. -/
theorem response_validation_errors_witness :
    buildRequestBody tiInput = Except.ok tiBody ∧
    generateImage tiInput (.parsed { error := some "boom" })
      = Except.error (.errorObj "Image generation failed: Model error: boom") ∧
    generateImage tiInput (.parsed { images := some [] })
      = Except.error (.errorObj "Image generation failed: No image returned from model") :=
  ⟨rfl,
    (response_validation_errors tiInput tiBody rfl { error := some "boom" }).1
      "boom" rfl (by decide),
    (response_validation_errors tiInput tiBody rfl { images := some [] }).2
      rfl (Or.inr rfl)⟩

/-! ## Claim C9 -/

/-- C9: a response whose images array starts with the empty string fails
with the EmptyResult error ("No image returned from model") even though the
array is non-empty — emptiness is judged by falsiness of the first element,
not by array length. -/
theorem empty_first_image_rejected (options : ImageGenerationInput)
    (body : RequestBody) (h : buildRequestBody options = Except.ok body)
    (j : ResponseJson) (rest : List String)
    (herr : jsTruthyStr j.error = false)
    (himg : j.images = some ("" :: rest)) :
    generateImage options (.parsed j)
      = Except.error (.errorObj "Image generation failed: No image returned from model") := by
  simp only [generateImage, generateImageRun, h, tryBlock, herr, himg]
  simp [thrownMessage]

/-- C9 witness: the non-empty response `{ images: [""] }` fails with the
wrapped EmptyResult message. -/
theorem empty_first_image_rejected_witness :
    buildRequestBody tiInput = Except.ok tiBody ∧
    jsTruthyStr ({ images := some [""] } : ResponseJson).error = false ∧
    ({ images := some [""] } : ResponseJson).images = some [""] ∧
    generateImage tiInput (.parsed { images := some [""] })
      = Except.error (.errorObj "Image generation failed: No image returned from model") :=
  ⟨rfl, rfl, rfl,
    empty_first_image_rejected tiInput tiBody rfl { images := some [""] } [] rfl rfl⟩

/-! ## Claim C8 -/

/-- C8: encoding any byte sequence to base64 and then decoding the
resulting string returns the original byte sequence. -/
theorem base64_roundtrip (bs : List Nat) (h : ∀ b ∈ bs, b < 256) :
    b64DecodeBytes (b64EncodeBytes bs) = bs :=
  b64_decode_encode bs h

/-- C8 witness: the 256-byte sample of all byte values round-trips. -/
theorem base64_roundtrip_witness :
    (∀ b ∈ List.range 256, b < 256) ∧
    b64DecodeBytes (b64EncodeBytes (List.range 256)) = List.range 256 :=
  ⟨fun _ hb => List.mem_range.mp hb,
    base64_roundtrip (List.range 256) (fun _ hb => List.mem_range.mp hb)⟩

end Bedrock
